import Mathlib

/-
Shallow embedding of the coap-rs server event loop (src/server.rs).

The repository under verification holds one source file, server.rs, with the
dispatcher (Server::run, Server::dispatch_msg), the combined event stream
(CoAPServer::poll_next) and the multicast setup (Server::join_multicast,
Server::enable_all_coap).  External collaborators (the coap_lite packet
library, the observer registry and the OS socket calls) enter the model as
parameters: the observer filter is a Boolean-valued function, the application
handler is a function returning an optional response, and socket sends and
multicast-join system calls are functions returning an Except value.
Effects on the socket are made visible as explicit event traces.
-/

namespace CoapRs

/-- Opaque stand-in for a decoded coap_lite Packet; the dispatcher never
inspects its fields, so a single tag suffices. -/
structure Packet where
  data : Nat
deriving DecidableEq, Repr

/-- Opaque stand-in for std io Error values. -/
structure IoError where
  code : Nat
deriving DecidableEq, Repr

/-- IPv4 address as four octets, as in std net Ipv4Addr. -/
structure Ipv4Addr where
  o0 : Nat
  o1 : Nat
  o2 : Nat
  o3 : Nat
deriving DecidableEq, Repr

/-- IPv6 address as eight 16-bit segments, as in std net Ipv6Addr. -/
structure Ipv6Addr where
  s0 : Nat
  s1 : Nat
  s2 : Nat
  s3 : Nat
  s4 : Nat
  s5 : Nat
  s6 : Nat
  s7 : Nat
deriving DecidableEq, Repr

/-- std net IpAddr. -/
inductive IpAddr where
  | v4 (ip : Ipv4Addr)
  | v6 (ip : Ipv6Addr)
deriving DecidableEq, Repr

/-- std net SocketAddr: address plus port, split by family as in Rust. -/
inductive SocketAddr where
  | v4 (ip : Ipv4Addr) (port : Nat)
  | v6 (ip : Ipv6Addr) (port : Nat)
deriving DecidableEq, Repr

/-- std Ipv4Addr is_multicast: first octet in 224 ..= 239. -/
def Ipv4Addr.is_multicast (ip : Ipv4Addr) : Bool :=
  decide (224 ≤ ip.o0) && decide (ip.o0 ≤ 239)

/-- std Ipv6Addr is_multicast: first segment masked with 0xff00 equals 0xff00. -/
def Ipv6Addr.is_multicast (ip : Ipv6Addr) : Bool :=
  Nat.land ip.s0 0xff00 == 0xff00

/-- std IpAddr is_multicast dispatches on the family. -/
def IpAddr.is_multicast : IpAddr → Bool
  | .v4 ip => ip.is_multicast
  | .v6 ip => ip.is_multicast

/-- coap_lite CoapResponse, reduced to the message field the dispatcher uses. -/
structure CoapResponse where
  message : Packet
deriving DecidableEq, Repr

/-- coap_lite CoapRequest over SocketAddr endpoints, reduced to the fields the
dispatcher uses: the decoded packet and the source address. -/
structure CoapRequest where
  message : Packet
  source : SocketAddr
deriving DecidableEq, Repr

/-- coap_lite CoapRequest from_packet: wraps a packet and its source address. -/
def CoapRequest.from_packet (p : Packet) (a : SocketAddr) : CoapRequest :=
  { message := p, source := a }

/-- Observable socket-facing events of the dispatcher: an invocation of the
application handler, or a send of a datagram to a peer. -/
inductive Event where
  | handlerCall (req : CoapRequest)
  | sent (p : Packet) (a : SocketAddr)
deriving DecidableEq, Repr

/-- Datagrams pushed through the socket sink, in order, with their peers. -/
def sentEvents : List Event → List (Packet × SocketAddr)
  | [] => []
  | .sent p a :: rest => (p, a) :: sentEvents rest
  | .handlerCall _ :: rest => sentEvents rest

/-- Requests the application handler was invoked with, in order. -/
def handlerCalls : List Event → List CoapRequest
  | [] => []
  | .handlerCall r :: rest => r :: handlerCalls rest
  | .sent _ _ :: rest => handlerCalls rest

/-- Server dispatch_msg (server.rs lines 96 to 115).  Builds the request from
the packet and source address, consults the observer filter
(request_handler); when the filter returns false the message is consumed and
the function returns Ok without touching the handler.  Otherwise, when a
handler is installed, it is invoked; a Some response is sent to the peer with
the try operator propagating a send failure, a None response sends nothing.
The result pairs the Rust return value with the trace of observable events. -/
def dispatch_msg (request_handler : CoapRequest → Bool)
    (handler : Option (CoapRequest → Option CoapResponse))
    (sendRes : Packet → SocketAddr → Except IoError Unit)
    (packet : Packet) (addr : SocketAddr) :
    Except IoError Unit × List Event :=
  let request := CoapRequest.from_packet packet addr
  let filtered := ! request_handler request
  if filtered then (.ok (), [])
  else
    match handler with
    | some h =>
      match h request with
      | some response =>
        match sendRes response.message addr with
        | .ok _ => (.ok (), [.handlerCall request, .sent response.message addr])
        | .error e => (.error e, [.handlerCall request, .sent response.message addr])
      | none => (.ok (), [.handlerCall request])
    | none => (.ok (), [])

/-- Items yielded by the combined server stream (server.rs lines 40 to 43):
a queued outbound datagram to send, or an inbound decoded datagram. -/
inductive Message where
  | needSend (p : Packet) (a : SocketAddr)
  | received (p : Packet) (a : SocketAddr)
deriving DecidableEq, Repr

/-- Server run (server.rs lines 63 to 88), restricted to the server-stream arm
of the select loop: the observer-timer arm touches no state the claims
mention.  The input list is the finite sequence of items the combined stream
yields before terminating; the loop then breaks on complete and returns Ok.
An Ok NeedSend item is sent with the try operator propagating failure; an Ok
Received item goes through dispatch_msg, again with the try operator; an Err
item is logged at error level and the loop continues.  The installed handler
is always Some here because run stores the handler before looping. -/
def run (request_handler : CoapRequest → Bool)
    (handler : CoapRequest → Option CoapResponse)
    (sendRes : Packet → SocketAddr → Except IoError Unit) :
    List (Except IoError Message) → Except IoError Unit × List Event
  | [] => (.ok (), [])
  | .ok (.needSend p a) :: rest =>
    match sendRes p a with
    | .ok _ =>
      let r := run request_handler handler sendRes rest
      (r.1, .sent p a :: r.2)
    | .error e => (.error e, [.sent p a])
  | .ok (.received p a) :: rest =>
    let d := dispatch_msg request_handler (some handler) sendRes p a
    match d.1 with
    | .ok _ =>
      let r := run request_handler handler sendRes rest
      (r.1, d.2 ++ r.2)
    | .error e => (.error e, d.2)
  | .error _ :: rest => run request_handler handler sendRes rest

/-- Readiness of a polled sub-stream, as futures Poll over Option. -/
inductive PollState (α : Type) where
  | ready (a : α)
  | pending
deriving DecidableEq, Repr

/-- CoAPServer poll_next (server.rs lines 253 to 268).  First polls the
outbound receiver channel; when it is ready with an item, that item is
returned as NeedSend at once.  Only otherwise is the socket polled: pending
stays pending, end of stream ends the stream, a decoded datagram becomes
Received, and a socket error is passed through as an Err item. -/
def poll_next (receiverPoll : PollState (Option (Packet × SocketAddr)))
    (socketPoll : PollState (Option (Except IoError (Packet × SocketAddr)))) :
    PollState (Option (Except IoError Message)) :=
  match receiverPoll with
  | .ready (some (p, a)) => .ready (some (.ok (.needSend p a)))
  | _ =>
    match socketPoll with
    | .pending => .pending
    | .ready none => .ready none
    | .ready (some (.ok (p, a))) => .ready (some (.ok (.received p a)))
    | .ready (some (.error e)) => .ready (some (.error e))

/-- Multicast memberships added through the socket, with the interface
argument each join call passed. -/
inductive JoinEffect where
  | joinV4 (group : Ipv4Addr) (iface : Ipv4Addr)
  | joinV6 (group : Ipv6Addr) (iface : Nat)
deriving DecidableEq, Repr

/-- Rust-visible outcome of a function returning unit: normal return or a
panic with its message. -/
inductive Outcome where
  | ok
  | panicked (msg : String)
deriving DecidableEq, Repr

/-- Result of a multicast setup call: the memberships added plus the outcome. -/
structure JMResult where
  effects : List JoinEffect
  outcome : Outcome
deriving DecidableEq, Repr

/-- Server join_multicast (server.rs lines 180 to 206).  Asserts that the
address is multicast and the segment is at most 0xf, then matches on the
family of the bound socket address: same-family IPv4 joins the group via the
bound interface address, same-family IPv6 joins on interface index 0, and the
cross-family arms are empty blocks.  The join system calls are parameters;
their io Result is unwrapped, so a failing call panics.  Effects record the
memberships actually added. -/
def join_multicast (local_addr : SocketAddr)
    (joinV4Sys : Ipv4Addr → Ipv4Addr → Except IoError Unit)
    (joinV6Sys : Ipv6Addr → Nat → Except IoError Unit)
    (addr : IpAddr) (segment : Nat) : JMResult :=
  if addr.is_multicast = true then
    if segment ≤ 0xf then
      match local_addr with
      | .v4 localIp _port =>
        match addr with
        | .v4 ipv4 =>
          match joinV4Sys ipv4 localIp with
          | .ok _ => { effects := [.joinV4 ipv4 localIp], outcome := .ok }
          | .error _ =>
            { effects := [], outcome := .panicked "called unwrap on an Err value" }
        | .v6 _ => { effects := [], outcome := .ok }
      | .v6 _ _port =>
        match addr with
        | .v4 _ => { effects := [], outcome := .ok }
        | .v6 ipv6 =>
          match joinV6Sys ipv6 0 with
          | .ok _ => { effects := [.joinV6 ipv6 0], outcome := .ok }
          | .error _ =>
            { effects := [], outcome := .panicked "called unwrap on an Err value" }
    else { effects := [], outcome := .panicked "assertion failed: segment <= 0xf" }
  else { effects := [], outcome := .panicked "assertion failed: addr.is_multicast" }

/-- Server enable_all_coap (server.rs lines 126 to 137).  Picks the all-CoAP
group for the family of the bound address: 224.0.1.187 for IPv4, or the IPv6
group whose first segment is 0xff00 plus the segment argument and whose last
segment is 0xfd; then delegates to join_multicast with the same segment. -/
def enable_all_coap (local_addr : SocketAddr)
    (joinV4Sys : Ipv4Addr → Ipv4Addr → Except IoError Unit)
    (joinV6Sys : Ipv6Addr → Nat → Except IoError Unit)
    (segment : Nat) : JMResult :=
  let m : IpAddr :=
    match local_addr with
    | .v4 _ _ => .v4 { o0 := 224, o1 := 0, o2 := 1, o3 := 187 }
    | .v6 _ _ =>
      .v6 { s0 := 0xff00 + segment, s1 := 0, s2 := 0, s3 := 0,
            s4 := 0, s5 := 0, s6 := 0, s7 := 0xfd }
  join_multicast local_addr joinV4Sys joinV6Sys m segment

/-- Concrete values for witnesses and counterexamples. -/
def addr0 : SocketAddr := .v4 { o0 := 127, o1 := 0, o2 := 0, o3 := 1 } 5683

def pkt0 : Packet := { data := 1 }

def pkt1 : Packet := { data := 2 }

def resp0 : CoapResponse := { message := { data := 99 } }

def sendOk : Packet → SocketAddr → Except IoError Unit := fun _ _ => .ok ()

def sendFail : Packet → SocketAddr → Except IoError Unit := fun _ _ => .error { code := 111 }

def joinV4Ok : Ipv4Addr → Ipv4Addr → Except IoError Unit := fun _ _ => .ok ()

def joinV6Ok : Ipv6Addr → Nat → Except IoError Unit := fun _ _ => .ok ()

def joinV4Fail : Ipv4Addr → Ipv4Addr → Except IoError Unit := fun _ _ => .error { code := 13 }

def joinV6Fail : Ipv6Addr → Nat → Except IoError Unit := fun _ _ => .error { code := 13 }

def iface4 : Ipv4Addr := { o0 := 10, o1 := 0, o2 := 0, o3 := 1 }

def iface6 : Ipv6Addr := { s0 := 0, s1 := 0, s2 := 0, s3 := 0, s4 := 0, s5 := 0, s6 := 0, s7 := 1 }

def mcast4 : Ipv4Addr := { o0 := 224, o1 := 0, o2 := 1, o3 := 187 }

def mcast6 : Ipv6Addr := { s0 := 0xff02, s1 := 0, s2 := 0, s3 := 0, s4 := 0, s5 := 0, s6 := 0, s7 := 0xfd }

/-- C1: for an inbound datagram classified as a request, when the observer
filter admits it (request_handler returns true) the application handler is
invoked exactly once with that request, and when the filter consumes it
(request_handler returns false) dispatch_msg returns Ok with the handler not
invoked at all. -/
theorem dispatch_msg_filter_admit_consume
    (request_handler : CoapRequest → Bool)
    (h : CoapRequest → Option CoapResponse)
    (sendRes : Packet → SocketAddr → Except IoError Unit)
    (p : Packet) (a : SocketAddr) :
    (request_handler (CoapRequest.from_packet p a) = true →
      handlerCalls (dispatch_msg request_handler (some h) sendRes p a).2
        = [CoapRequest.from_packet p a]) ∧
    (request_handler (CoapRequest.from_packet p a) = false →
      dispatch_msg request_handler (some h) sendRes p a = (.ok (), [])) := by
  constructor
  · intro hrh
    unfold dispatch_msg
    simp only [hrh, Bool.not_true, Bool.false_eq_true, if_false]
    cases hh : h (CoapRequest.from_packet p a) with
    | some response =>
      cases hs : sendRes response.message a with
      | ok u => simp [hs, handlerCalls]
      | error e => simp [hs, handlerCalls]
    | none => simp [handlerCalls]
  · intro hrh
    unfold dispatch_msg
    simp [hrh]

/-- C1 witness at concrete inputs. -/
theorem dispatch_msg_filter_admit_consume_witness :
    handlerCalls (dispatch_msg (fun _ => true) (some (fun _ => none)) sendOk pkt0 addr0).2
      = [CoapRequest.from_packet pkt0 addr0] ∧
    dispatch_msg (fun _ => false) (some (fun _ => none)) sendOk pkt0 addr0 = (.ok (), []) :=
  ⟨(dispatch_msg_filter_admit_consume (fun _ => true) (fun _ => none) sendOk pkt0 addr0).1 rfl,
   (dispatch_msg_filter_admit_consume (fun _ => false) (fun _ => none) sendOk pkt0 addr0).2 rfl⟩

/-- C2: for an admitted request dispatched to the handler, a Some response
leads to exactly the packet response.message being sent to the source peer,
and a None response leads to no datagram and an Ok return. -/
theorem dispatch_msg_response_emission
    (request_handler : CoapRequest → Bool)
    (h : CoapRequest → Option CoapResponse)
    (sendRes : Packet → SocketAddr → Except IoError Unit)
    (p : Packet) (a : SocketAddr) :
    (∀ resp, request_handler (CoapRequest.from_packet p a) = true →
      h (CoapRequest.from_packet p a) = some resp →
      sentEvents (dispatch_msg request_handler (some h) sendRes p a).2
        = [(resp.message, a)]) ∧
    (request_handler (CoapRequest.from_packet p a) = true →
      h (CoapRequest.from_packet p a) = none →
      (dispatch_msg request_handler (some h) sendRes p a).1 = .ok () ∧
      sentEvents (dispatch_msg request_handler (some h) sendRes p a).2 = []) := by
  constructor
  · intro resp hrh hh
    unfold dispatch_msg
    simp only [hrh, Bool.not_true, Bool.false_eq_true, if_false, hh]
    cases hs : sendRes resp.message a with
    | ok u => simp [hs, sentEvents]
    | error e => simp [hs, sentEvents]
  · intro hrh hh
    unfold dispatch_msg
    simp [hrh, hh, sentEvents]

/-- C2 witness at concrete inputs. -/
theorem dispatch_msg_response_emission_witness :
    sentEvents (dispatch_msg (fun _ => true) (some (fun _ => some resp0)) sendOk pkt0 addr0).2
      = [(resp0.message, addr0)] ∧
    ((dispatch_msg (fun _ => true) (some (fun _ => none)) sendOk pkt0 addr0).1 = .ok () ∧
      sentEvents (dispatch_msg (fun _ => true) (some (fun _ => none)) sendOk pkt0 addr0).2 = []) :=
  ⟨(dispatch_msg_response_emission (fun _ => true) (fun _ => some resp0) sendOk pkt0 addr0).1
      resp0 rfl rfl,
   (dispatch_msg_response_emission (fun _ => true) (fun _ => none) sendOk pkt0 addr0).2 rfl rfl⟩

/-- Sequencing of the event loop: once a prefix of stream items is processed
without a propagated error, the loop behaves on the rest as if started there,
with the traces concatenated. -/
theorem run_append (request_handler : CoapRequest → Bool)
    (handler : CoapRequest → Option CoapResponse)
    (sendRes : Packet → SocketAddr → Except IoError Unit)
    (xs ys : List (Except IoError Message))
    (hxs : (run request_handler handler sendRes xs).1 = .ok ()) :
    run request_handler handler sendRes (xs ++ ys)
      = ((run request_handler handler sendRes ys).1,
         (run request_handler handler sendRes xs).2
           ++ (run request_handler handler sendRes ys).2) := by
  induction xs with
  | nil => simp [run]
  | cons x rest ih =>
    match x with
    | .error e =>
      simp only [run, List.cons_append] at hxs ⊢
      exact ih hxs
    | .ok (.needSend p a) =>
      cases hs : sendRes p a with
      | ok u =>
        simp only [run, hs, List.cons_append, List.append_eq] at hxs ⊢
        rw [ih hxs]
      | error e =>
        simp [run, hs] at hxs
    | .ok (.received p a) =>
      cases hd : (dispatch_msg request_handler (some handler) sendRes p a).1 with
      | ok u =>
        simp only [run, hd, List.cons_append, List.append_eq] at hxs ⊢
        rw [ih hxs]
        simp [List.append_assoc]
      | error e =>
        simp [run, hd] at hxs

/-- C3 counterexample: at the concrete input stream consisting of a single
Err item, run returns Ok and an empty trace; it does not return the error,
so an inbound stream error does not terminate the loop with that error. -/
theorem run_recv_error_swallowed_at_concrete_input :
    run (fun _ => true) (fun _ => none) sendOk [Except.error { code := 7 }]
      = (Except.ok (), []) ∧
    (run (fun _ => true) (fun _ => none) sendOk [Except.error { code := 7 }]).1
      ≠ Except.error { code := 7 } := by
  constructor
  · rfl
  · intro hcontra
    simp [run] at hcontra

/-- C3 amended: an Err item yielded by the inbound stream is logged and
skipped; the event loop continues exactly as if the item were absent, and
run does not surface the error. -/
theorem run_skips_recv_errors (request_handler : CoapRequest → Bool)
    (handler : CoapRequest → Option CoapResponse)
    (sendRes : Packet → SocketAddr → Except IoError Unit)
    (e : IoError) (rest : List (Except IoError Message)) :
    run request_handler handler sendRes (Except.error e :: rest)
      = run request_handler handler sendRes rest := rfl

/-- C4: an I/O error from a socket send is surfaced out of run, both when
sending a queued outbound NeedSend item and when dispatch_msg sends a handler
response for an admitted Received item, provided the items before it were
processed without a propagated error. -/
theorem run_surfaces_send_errors (request_handler : CoapRequest → Bool)
    (handler : CoapRequest → Option CoapResponse)
    (sendRes : Packet → SocketAddr → Except IoError Unit)
    (pre rest : List (Except IoError Message))
    (p : Packet) (a : SocketAddr) (e : IoError)
    (hpre : (run request_handler handler sendRes pre).1 = .ok ()) :
    (sendRes p a = .error e →
      (run request_handler handler sendRes
        (pre ++ Except.ok (Message.needSend p a) :: rest)).1 = .error e) ∧
    (∀ resp, request_handler (CoapRequest.from_packet p a) = true →
      handler (CoapRequest.from_packet p a) = some resp →
      sendRes resp.message a = .error e →
      (run request_handler handler sendRes
        (pre ++ Except.ok (Message.received p a) :: rest)).1 = .error e) := by
  constructor
  · intro hs
    rw [run_append request_handler handler sendRes pre _ hpre]
    simp [run, hs]
  · intro resp hrh hh hs
    rw [run_append request_handler handler sendRes pre _ hpre]
    have hd : (dispatch_msg request_handler (some handler) sendRes p a).1 = .error e := by
      unfold dispatch_msg
      simp [hrh, hh, hs]
    simp [run, hd]

/-- C4 witness at concrete inputs: with a failing send, a single NeedSend item
and a single admitted Received item each make run return the send error. -/
theorem run_surfaces_send_errors_witness :
    (run (fun _ => true) (fun _ => some resp0) sendFail
      [Except.ok (Message.needSend pkt0 addr0)]).1 = Except.error { code := 111 } ∧
    (run (fun _ => true) (fun _ => some resp0) sendFail
      [Except.ok (Message.received pkt0 addr0)]).1 = Except.error { code := 111 } :=
  ⟨(run_surfaces_send_errors (fun _ => true) (fun _ => some resp0) sendFail
      [] [] pkt0 addr0 { code := 111 } rfl).1 rfl,
   (run_surfaces_send_errors (fun _ => true) (fun _ => some resp0) sendFail
      [] [] pkt0 addr0 { code := 111 } rfl).2 resp0 rfl rfl rfl⟩

/-- C5 counterexample: at a concrete state where both the outbound receiver
and the inbound socket are ready, poll_next yields the outbound item as
NeedSend, not the inbound datagram, refuting that the stream does not always
yield the outbound item first. -/
theorem poll_next_outbound_first_at_concrete_input :
    poll_next (PollState.ready (some (pkt0, addr0)))
      (PollState.ready (some (Except.ok (pkt1, addr0))))
      = PollState.ready (some (Except.ok (Message.needSend pkt0 addr0))) ∧
    poll_next (PollState.ready (some (pkt0, addr0)))
      (PollState.ready (some (Except.ok (pkt1, addr0))))
      ≠ PollState.ready (some (Except.ok (Message.received pkt1 addr0))) := by
  constructor
  · rfl
  · intro hcontra
    simp [poll_next] at hcontra

/-- C5 amended: the combined stream does prioritize outbound over inbound;
whenever the outbound receiver is ready with an item, poll_next yields that
item as NeedSend no matter the state of the inbound socket. -/
theorem poll_next_prioritizes_outbound (p : Packet) (a : SocketAddr)
    (socketPoll : PollState (Option (Except IoError (Packet × SocketAddr)))) :
    poll_next (PollState.ready (some (p, a))) socketPoll
      = PollState.ready (some (Except.ok (Message.needSend p a))) := rfl

/-- C6: with a succeeding join system call and a segment within the asserted
range, enable_all_coap on an IPv4-bound server joins 224.0.1.187, and on an
IPv6-bound server joins the group whose first 16-bit segment is 0xff00 plus
the segment argument and whose last segment is 0xfd. -/
theorem enable_all_coap_joins_all_coap_groups
    (joinV4Sys : Ipv4Addr → Ipv4Addr → Except IoError Unit)
    (joinV6Sys : Ipv6Addr → Nat → Except IoError Unit)
    (segment : Nat) (hseg : segment ≤ 0xf) :
    (∀ ip port, (∀ g i, joinV4Sys g i = .ok ()) →
      (enable_all_coap (SocketAddr.v4 ip port) joinV4Sys joinV6Sys segment).effects
        = [JoinEffect.joinV4 { o0 := 224, o1 := 0, o2 := 1, o3 := 187 } ip]) ∧
    (∀ ip port, (∀ g i, joinV6Sys g i = .ok ()) →
      (enable_all_coap (SocketAddr.v6 ip port) joinV4Sys joinV6Sys segment).effects
        = [JoinEffect.joinV6
            { s0 := 0xff00 + segment, s1 := 0, s2 := 0, s3 := 0,
              s4 := 0, s5 := 0, s6 := 0, s7 := 0xfd } 0]) := by
  constructor
  · intro ip port hok
    simp [enable_all_coap, join_multicast, IpAddr.is_multicast,
      Ipv4Addr.is_multicast, hseg, hok]
  · intro ip port hok
    have hm : Ipv6Addr.is_multicast
        { s0 := 0xff00 + segment, s1 := 0, s2 := 0, s3 := 0,
          s4 := 0, s5 := 0, s6 := 0, s7 := 0xfd } = true := by
      unfold Ipv6Addr.is_multicast
      interval_cases segment <;> decide
    simp [enable_all_coap, join_multicast, IpAddr.is_multicast, hm, hseg, hok]

/-- C6 witness at concrete inputs with segment 2. -/
theorem enable_all_coap_joins_all_coap_groups_witness :
    (enable_all_coap (SocketAddr.v4 iface4 5683) joinV4Ok joinV6Ok 2).effects
      = [JoinEffect.joinV4 { o0 := 224, o1 := 0, o2 := 1, o3 := 187 } iface4] ∧
    (enable_all_coap (SocketAddr.v6 iface6 5683) joinV4Ok joinV6Ok 2).effects
      = [JoinEffect.joinV6
          { s0 := 0xff00 + 2, s1 := 0, s2 := 0, s3 := 0,
            s4 := 0, s5 := 0, s6 := 0, s7 := 0xfd } 0] :=
  ⟨(enable_all_coap_joins_all_coap_groups joinV4Ok joinV6Ok 2 (by decide)).1
      iface4 5683 (fun _ _ => rfl),
   (enable_all_coap_joins_all_coap_groups joinV4Ok joinV6Ok 2 (by decide)).2
      iface6 5683 (fun _ _ => rfl)⟩

/-- C7: for a same-family multicast join with the assertions passing and a
succeeding system call, an IPv4 socket joins the group via its own bound
interface address and an IPv6 socket joins the group on interface index 0. -/
theorem join_multicast_iface_selection
    (joinV4Sys : Ipv4Addr → Ipv4Addr → Except IoError Unit)
    (joinV6Sys : Ipv6Addr → Nat → Except IoError Unit)
    (segment : Nat) (hseg : segment ≤ 0xf) :
    (∀ ip port g, Ipv4Addr.is_multicast g = true → joinV4Sys g ip = .ok () →
      (join_multicast (SocketAddr.v4 ip port) joinV4Sys joinV6Sys
        (IpAddr.v4 g) segment).effects = [JoinEffect.joinV4 g ip]) ∧
    (∀ ip port g, Ipv6Addr.is_multicast g = true → joinV6Sys g 0 = .ok () →
      (join_multicast (SocketAddr.v6 ip port) joinV4Sys joinV6Sys
        (IpAddr.v6 g) segment).effects = [JoinEffect.joinV6 g 0]) := by
  constructor
  · intro ip port g hm hok
    simp [join_multicast, IpAddr.is_multicast, hm, hseg, hok]
  · intro ip port g hm hok
    simp [join_multicast, IpAddr.is_multicast, hm, hseg, hok]

/-- C7 witness at concrete inputs. -/
theorem join_multicast_iface_selection_witness :
    (join_multicast (SocketAddr.v4 iface4 5683) joinV4Ok joinV6Ok
      (IpAddr.v4 mcast4) 0).effects = [JoinEffect.joinV4 mcast4 iface4] ∧
    (join_multicast (SocketAddr.v6 iface6 5683) joinV4Ok joinV6Ok
      (IpAddr.v6 mcast6) 0).effects = [JoinEffect.joinV6 mcast6 0] :=
  ⟨(join_multicast_iface_selection joinV4Ok joinV6Ok 0 (by decide)).1
      iface4 5683 mcast4 (by decide) rfl,
   (join_multicast_iface_selection joinV4Ok joinV6Ok 0 (by decide)).2
      iface6 5683 mcast6 (by decide) rfl⟩

/-- C8: a cross-family call with the assertions passing is a no-op: it
returns normally with no multicast membership added, for an IPv6 group on an
IPv4 socket and for an IPv4 group on an IPv6 socket. -/
theorem join_multicast_cross_family_noop
    (joinV4Sys : Ipv4Addr → Ipv4Addr → Except IoError Unit)
    (joinV6Sys : Ipv6Addr → Nat → Except IoError Unit)
    (segment : Nat) (hseg : segment ≤ 0xf) :
    (∀ ip port g, Ipv6Addr.is_multicast g = true →
      join_multicast (SocketAddr.v4 ip port) joinV4Sys joinV6Sys
        (IpAddr.v6 g) segment = { effects := [], outcome := .ok }) ∧
    (∀ ip port g, Ipv4Addr.is_multicast g = true →
      join_multicast (SocketAddr.v6 ip port) joinV4Sys joinV6Sys
        (IpAddr.v4 g) segment = { effects := [], outcome := .ok }) := by
  constructor
  · intro ip port g hm
    simp [join_multicast, IpAddr.is_multicast, hm, hseg]
  · intro ip port g hm
    simp [join_multicast, IpAddr.is_multicast, hm, hseg]

/-- C8 witness at concrete inputs. -/
theorem join_multicast_cross_family_noop_witness :
    join_multicast (SocketAddr.v4 iface4 5683) joinV4Ok joinV6Ok
      (IpAddr.v6 mcast6) 0 = { effects := [], outcome := .ok } ∧
    join_multicast (SocketAddr.v6 iface6 5683) joinV4Ok joinV6Ok
      (IpAddr.v4 mcast4) 0 = { effects := [], outcome := .ok } :=
  ⟨(join_multicast_cross_family_noop joinV4Ok joinV6Ok 0 (by decide)).1
      iface4 5683 mcast6 (by decide),
   (join_multicast_cross_family_noop joinV4Ok joinV6Ok 0 (by decide)).2
      iface6 5683 mcast4 (by decide)⟩

/-- C9 counterexample: at a concrete same-family call whose join system call
fails, join_multicast panics through unwrap with no membership added; the
Rust function returns unit, so the failure is not surfaced to the caller as
an error value. -/
theorem join_multicast_sys_failure_panics_at_concrete_input :
    join_multicast (SocketAddr.v4 iface4 5683) joinV4Fail joinV6Ok
      (IpAddr.v4 mcast4) 0
      = { effects := [], outcome := .panicked "called unwrap on an Err value" } ∧
    (join_multicast (SocketAddr.v4 iface4 5683) joinV4Fail joinV6Ok
      (IpAddr.v4 mcast4) 0).outcome ≠ .ok := by
  constructor
  · rfl
  · intro hcontra
    simp [join_multicast, joinV4Fail, IpAddr.is_multicast,
      Ipv4Addr.is_multicast, iface4, mcast4] at hcontra

/-- C9 amended: a failure of the underlying multicast-join system call is not
returned to the caller as an error value; join_multicast unwraps the failing
result and panics, with no membership added, on either address family. -/
theorem join_multicast_sys_failure_is_panic
    (joinV4Sys : Ipv4Addr → Ipv4Addr → Except IoError Unit)
    (joinV6Sys : Ipv6Addr → Nat → Except IoError Unit)
    (segment : Nat) (hseg : segment ≤ 0xf) :
    (∀ ip port g e, Ipv4Addr.is_multicast g = true → joinV4Sys g ip = .error e →
      join_multicast (SocketAddr.v4 ip port) joinV4Sys joinV6Sys
        (IpAddr.v4 g) segment
        = { effects := [], outcome := .panicked "called unwrap on an Err value" }) ∧
    (∀ ip port g e, Ipv6Addr.is_multicast g = true → joinV6Sys g 0 = .error e →
      join_multicast (SocketAddr.v6 ip port) joinV4Sys joinV6Sys
        (IpAddr.v6 g) segment
        = { effects := [], outcome := .panicked "called unwrap on an Err value" }) := by
  constructor
  · intro ip port g e hm hfail
    simp [join_multicast, IpAddr.is_multicast, hm, hseg, hfail]
  · intro ip port g e hm hfail
    simp [join_multicast, IpAddr.is_multicast, hm, hseg, hfail]

/-- C9 amended witness at concrete inputs. -/
theorem join_multicast_sys_failure_is_panic_witness :
    join_multicast (SocketAddr.v6 iface6 5683) joinV4Ok joinV6Fail
      (IpAddr.v6 mcast6) 0
      = { effects := [], outcome := .panicked "called unwrap on an Err value" } :=
  (join_multicast_sys_failure_is_panic joinV4Ok joinV6Fail 0 (by decide)).2
    iface6 5683 mcast6 { code := 13 } (by decide) rfl

/-- C10: the leading assertions of join_multicast gate every path: when the
group is multicast and the segment is at most 0xf the assertions pass and,
with succeeding system calls, the call returns normally; when the group is
not multicast or the segment exceeds 0xf the call panics in an assertion
before touching the socket, adding no membership. -/
theorem join_multicast_assert_gate
    (joinV4Sys : Ipv4Addr → Ipv4Addr → Except IoError Unit)
    (joinV6Sys : Ipv6Addr → Nat → Except IoError Unit)
    (addr : IpAddr) (segment : Nat) :
    ((addr.is_multicast = true ∧ segment ≤ 0xf) →
      (∀ g i, joinV4Sys g i = .ok ()) → (∀ g i, joinV6Sys g i = .ok ()) →
      ∀ lo, (join_multicast lo joinV4Sys joinV6Sys addr segment).outcome = .ok) ∧
    ((addr.is_multicast = false ∨ 0xf < segment) →
      ∀ lo, (join_multicast lo joinV4Sys joinV6Sys addr segment).effects = [] ∧
        ((join_multicast lo joinV4Sys joinV6Sys addr segment).outcome
            = .panicked "assertion failed: addr.is_multicast" ∨
         (join_multicast lo joinV4Sys joinV6Sys addr segment).outcome
            = .panicked "assertion failed: segment <= 0xf")) := by
  constructor
  · rintro ⟨hm, hseg⟩ h4 h6 lo
    cases lo with
    | v4 ip port =>
      cases addr with
      | v4 g => simp [join_multicast, hm, hseg, h4]
      | v6 g => simp [join_multicast, hm, hseg]
    | v6 ip port =>
      cases addr with
      | v4 g => simp [join_multicast, hm, hseg]
      | v6 g => simp [join_multicast, hm, hseg, h6]
  · intro hbad lo
    rcases hbad with hm | hseg
    · simp [join_multicast, hm]
    · have hns : ¬ (segment ≤ 0xf) := Nat.not_le.mpr hseg
      by_cases hm : addr.is_multicast = true
      · simp [join_multicast, hm, hns]
      · simp [join_multicast, hm]

/-- C10 witness at concrete inputs: a multicast group with segment 0 passes
the assertions and succeeds, while a non-multicast group panics in the first
assertion with no membership added. -/
theorem join_multicast_assert_gate_witness :
    (join_multicast addr0 joinV4Ok joinV6Ok (IpAddr.v4 mcast4) 0).outcome = .ok ∧
    ((join_multicast addr0 joinV4Ok joinV6Ok (IpAddr.v4 iface4) 0).effects = [] ∧
      ((join_multicast addr0 joinV4Ok joinV6Ok (IpAddr.v4 iface4) 0).outcome
          = .panicked "assertion failed: addr.is_multicast" ∨
       (join_multicast addr0 joinV4Ok joinV6Ok (IpAddr.v4 iface4) 0).outcome
          = .panicked "assertion failed: segment <= 0xf")) :=
  ⟨(join_multicast_assert_gate joinV4Ok joinV6Ok (IpAddr.v4 mcast4) 0).1
      ⟨by decide, by decide⟩ (fun _ _ => rfl) (fun _ _ => rfl) addr0,
   (join_multicast_assert_gate joinV4Ok joinV6Ok (IpAddr.v4 iface4) 0).2
      (Or.inl (by decide)) addr0⟩

end CoapRs
